import Mathlib

/-!
Shallow embedding of the feedly-saved-entries-processor repository
(`src/feedly_saved_entries_processor/`): the entry data model, the rule
matchers, the entry processors, the configuration loader/saver and the
processing loop, together with theorems settling the specification claims.

Modelling conventions:
- Python `None`-able fields become `Option`; Python string formatting of an
  optional (`f"{x}"` where `x : str | None`) is `pyStrOpt`, which renders
  `None` as the string "None" exactly as Python does.
- Exceptions become `Except` results; the exception kinds that matter to the
  claims are distinguished by the `Exn` inductive.
- YAML documents are modelled post-parse as a structured `Yaml` value;
  mappings are association lists in document order.
- Side effects (logger calls, Todoist API calls, dynamic method dispatch)
  are modelled as a trace of `Event` values.
-/

namespace FeedlySEP

/-- `feedly_client.Summary`: summary model, `content : str`. -/
structure Summary where
  content : String
  deriving DecidableEq, Repr

/-- `feedly_client.Origin`: origin model with `html_url`, `stream_id`, `title`. -/
structure Origin where
  html_url : String
  stream_id : String
  title : String
  deriving DecidableEq, Repr

/-- `feedly_client.Entry`: entry model; `id` is required, all other fields
default to `None`. -/
structure Entry where
  id : String
  author : Option String := none
  canonical_url : Option String := none
  origin : Option Origin := none
  published : Option Int := none
  summary : Option Summary := none
  title : Option String := none
  deriving DecidableEq, Repr

/-- Python's rendering of a `str | None` value inside an f-string:
`None` prints as "None". -/
def pyStrOpt : Option String → String
  | none => "None"
  | some s => s

/-- The matcher variants of `rule_matcher.py`: `AllMatcher` (tag "all",
no data) and `StreamIdInMatcher` (tag "stream_id_in", carrying
`stream_ids : tuple[str, ...]`). -/
inductive Matcher where
  | all : Matcher
  | stream_id_in (stream_ids : List String) : Matcher
  deriving DecidableEq, Repr

/-- `AllMatcher.is_match` returns `True`; `StreamIdInMatcher.is_match` is
`bool(entry.origin and entry.origin.stream_id in self.stream_ids)`. -/
def Matcher.is_match : Matcher → Entry → Bool
  | .all, _ => true
  | .stream_id_in ids, e =>
    match e.origin with
    | none => false
    | some o => ids.contains o.stream_id

/-- C8: `StreamIdInMatcher.is_match(e)` is true iff `e.origin` is present and
`e.origin.stream_id` is a member (exact, case-sensitive string equality) of
the configured collection; it is false whenever `e.origin` is absent, and it
is a total Lean function, so it never throws on any well-formed entry. -/
theorem c8_stream_id_in_matcher_is_match (ids : List String) (e : Entry) :
    (Matcher.is_match (.stream_id_in ids) e = true ↔
      ∃ o, e.origin = some o ∧ o.stream_id ∈ ids) ∧
    (e.origin = none → Matcher.is_match (.stream_id_in ids) e = false) := by
  constructor
  · cases h : e.origin with
    | none => simp [Matcher.is_match, h]
    | some o =>
      simp only [Matcher.is_match, h, List.elem_iff]
      constructor
      · intro hm
        exact ⟨o, rfl, hm⟩
      · rintro ⟨o', ho', hm⟩
        cases ho'
        exact hm
  · intro h
    simp [Matcher.is_match, h]

/-- Witness for `c8_stream_id_in_matcher_is_match` at concrete inputs:
an entry with `origin = None` does not match, and an entry whose origin
stream id is listed does match. -/
theorem c8_stream_id_in_matcher_is_match_witness :
    Matcher.is_match (.stream_id_in ["feed/a"]) { id := "e1" } = false ∧
    Matcher.is_match (.stream_id_in ["feed/a"])
      { id := "e2", origin := some { html_url := "h", stream_id := "feed/a", title := "t" } } = true := by
  refine ⟨(c8_stream_id_in_matcher_is_match ["feed/a"] { id := "e1" }).2 rfl, ?_⟩
  exact (c8_stream_id_in_matcher_is_match ["feed/a"] _).1.mpr
    ⟨{ html_url := "h", stream_id := "feed/a", title := "t" }, rfl, by decide⟩

/-- A parsed YAML document value: scalars, sequences and mappings
(mappings are association lists in document order). -/
inductive Yaml where
  | str (s : String) : Yaml
  | int (n : Int) : Yaml
  | bool (b : Bool) : Yaml
  | null : Yaml
  | list (xs : List Yaml) : Yaml
  | map (kvs : List (String × Yaml)) : Yaml

/-- The Python exception kinds the claims distinguish. -/
inductive Exn where
  | attributeError : Exn
  | valueError (msg : String) : Exn
  | otherExn (msg : String) : Exn
  deriving DecidableEq, Repr

/-- The log severity levels of `Literal["info", "debug", "warning", "error"]`. -/
inductive LogLevel where
  | info : LogLevel
  | debug : LogLevel
  | warning : LogLevel
  | error : LogLevel
  deriving DecidableEq, Repr

/-- The keyword arguments `todoist_client.add_task` is called with in
`TodoistEntryProcessor.process_entry`. -/
structure AddTaskCall where
  content : String
  project_id : String
  priority : Option Nat
  due_datetime : Option Int
  description : Option String
  deriving DecidableEq, Repr

/-- `entry_processors/todoist_entry_processor.TodoistEntryProcessor`:
`project_id` required, `due_datetime : datetime | None` (modelled as an
epoch integer) and `priority : Literal[1, 2, 3, 4] | None`. -/
structure TodoistEntryProcessor where
  project_id : String
  due_datetime : Option Int := none
  priority : Option Nat := none
  deriving DecidableEq, Repr

/-- `entry_processors/log_entry_processor.LogEntryProcessor`
(tag "log", `level` defaulting to `"info"`). -/
structure LogEntryProcessor where
  level : LogLevel := .info
  deriving DecidableEq, Repr

/-- `entry_processors/log_only_entry_processor.LogOnlyEntryProcessor`
(`level` defaulting to `"info"`). -/
structure LogOnlyEntryProcessor where
  level : LogLevel := .info
  deriving DecidableEq, Repr

/-- The observable effects of one processing run: logger calls, Todoist API
calls, and (as call-trace markers) the `is_match` invocations the loop makes.
The logger-call events carry the fields the code interpolates into the
message (rule name, entry title and canonical URL rendered as Python does). -/
inductive Event where
  | isMatchCalled (ruleName : String) (entryId : String) : Event
  | logInfoMatched (ruleName : String) (title : String) (url : String) : Event
  | logErrorProcessing (ruleName : String) (title : String) (url : String) : Event
  | logErrorEvaluating (ruleName : String) (title : String) (url : String) : Event
  | logAt (level : LogLevel) (msg : String) : Event
  | addTask (call : AddTaskCall) : Event
  deriving DecidableEq, Repr

/-- The log line built by both log processors:
`f"Processing entry: {entry.title} (URL: {entry.canonical_url})"`. -/
def logMessage (e : Entry) : String :=
  "Processing entry: " ++ pyStrOpt e.title ++ " (URL: " ++ pyStrOpt e.canonical_url ++ ")"

/-- `LogEntryProcessor.process_entry`: logs the message at the configured
level (the `match` over the level total by `assert_never`). -/
def LogEntryProcessor.process_entry (p : LogEntryProcessor) (e : Entry) : List Event :=
  [Event.logAt p.level (logMessage e)]

/-- `TodoistEntryProcessor.process_entry`: raises `ValueError` when
`entry.canonical_url is None`; otherwise builds
`task_content = f"{entry.title} - {entry.canonical_url}"` and calls
`todoist_client.add_task` with content, project id, priority, due datetime
and `description = entry.summary.content if entry.summary else None`. -/
def TodoistEntryProcessor.process_entry (p : TodoistEntryProcessor) (e : Entry) :
    Except Exn AddTaskCall :=
  match e.canonical_url with
  | none => .error (.valueError
      "Entry must have a canonical_url to be processed by TodoistEntryProcessor.")
  | some url =>
    .ok { content := pyStrOpt e.title ++ " - " ++ url
          project_id := p.project_id
          priority := p.priority
          due_datetime := p.due_datetime
          description := e.summary.map Summary.content }

/-- The dynamic interface `__main__.process_entry` uses on a rule: attribute
access `rule.name`, the call `rule.match.is_match(entry)` (which may return a
boolean or raise), and the call `rule.processor.process_entry(entry)` (which
performs some effects and then either returns or raises). Python dispatches
both calls dynamically, so the loop's behaviour is defined for any such
semantics (the repository's tests drive the loop with mock rules). -/
structure DynRule where
  name : String
  is_match : Entry → Except Exn Bool
  process : Entry → List Event × Except Exn Unit

/-- `__main__.process_entry`: evaluate `rule.match.is_match(entry)` inside an
outer `try` (any exception is logged as "Error evaluating rule ..."); on a
match, log the match at info level and call
`rule.processor.process_entry(entry)` inside an inner `try` (any exception is
logged as "Error processing entry ..."). The function itself always returns
normally — every exception is caught. `processTail` is the body after the
trace marker for the `is_match` call; `process_entry` is the whole call. -/
def processTail (e : Entry) (r : DynRule) : List Event :=
  match r.is_match e with
  | .error _ => [Event.logErrorEvaluating r.name (pyStrOpt e.title) (pyStrOpt e.canonical_url)]
  | .ok false => []
  | .ok true =>
    Event.logInfoMatched r.name (pyStrOpt e.title) (pyStrOpt e.canonical_url) ::
      (r.process e).1 ++
        match (r.process e).2 with
        | .error _ =>
          [Event.logErrorProcessing r.name (pyStrOpt e.title) (pyStrOpt e.canonical_url)]
        | .ok _ => []

def process_entry (e : Entry) (r : DynRule) : List Event :=
  Event.isMatchCalled r.name e.id :: processTail e r

/-- `__main__.process_entries`: `for entry in entries: for rule in rules:
process_entry(entry, rule)`; the run's trace is the concatenation in that
nesting order. -/
def process_entries (entries : List Entry) (rules : List DynRule) : List Event :=
  entries.flatMap fun e => rules.flatMap fun r => process_entry e r

/-- `config_loader.Rule` exactly as declared in `config_loader.py`:
`name : str`, `match` (a `matcher_name`-discriminated union of the two
matchers; the field is called `match_` because `match` is reserved in Lean),
`processor : str`, and `processor_config : dict[str, Any]` defaulting to
`{}`. Note the `processor` field is a plain string, not a processor
object. -/
structure Rule where
  name : String
  match_ : Matcher
  processor : String
  processor_config : List (String × Yaml) := []

/-- `config_loader.Config`: `rules : tuple[Rule, ...]`. -/
structure Config where
  rules : List Rule

/-- The dynamic semantics of a `config_loader.Rule` under
`__main__.process_entry`: `rule.match.is_match(entry)` calls the matcher
(total, never raises), while `rule.processor` is a `str`, and `str` has no
`process_entry` attribute, so the call `rule.processor.process_entry(entry)`
raises `AttributeError` (inside the inner `try`) before any effect. -/
def Rule.dyn (r : Rule) : DynRule :=
  { name := r.name
    is_match := fun e => .ok (r.match_.is_match e)
    process := fun _ => ([], .error .attributeError) }

/-- The dynamic semantics of a rule object whose `processor` attribute is a
`TodoistEntryProcessor` (the shape the repository's tests build and
`__main__` expects): the processor either raises before any effect or
performs the single `add_task` call. -/
def todoistDynRule (name : String) (m : Matcher) (p : TodoistEntryProcessor) : DynRule :=
  { name := name
    is_match := fun e => .ok (m.is_match e)
    process := fun e =>
      match p.process_entry e with
      | .error exn => ([], .error exn)
      | .ok call => ([Event.addTask call], .ok ()) }

/-- The dynamic semantics of a rule object whose `processor` attribute is a
`LogEntryProcessor`: the single logger call, never raising. -/
def logDynRule (name : String) (m : Matcher) (p : LogEntryProcessor) : DynRule :=
  { name := name
    is_match := fun e => .ok (m.is_match e)
    process := fun e => (p.process_entry e, .ok ()) }

/-- First-occurrence key lookup in a YAML mapping (pydantic receives the
parsed mapping as a Python `dict`; documents written by `save_config` have
unique keys). -/
def lookupKey (kvs : List (String × Yaml)) (k : String) : Option Yaml :=
  (kvs.find? fun kv => kv.1 == k).map fun kv => kv.2

/-- Pydantic validation of a `str` field: only a string value is accepted. -/
def asStr : Yaml → Except String String
  | .str s => .ok s
  | _ => .error "Input should be a valid string"

/-- Turn a missing required field into a validation error. -/
def requireField (o : Option Yaml) (msg : String) : Except String Yaml :=
  match o with
  | some y => .ok y
  | none => .error msg

/-- Pydantic validation of the `match` field of a `Rule`: a
`matcher_name`-discriminated union of `AllMatcher` and `StreamIdInMatcher`.
The tag selects the variant; `stream_id_in` additionally requires
`stream_ids` to be a sequence of strings; an unknown or missing tag is a
validation error. -/
def parseMatcher (y : Yaml) : Except String Matcher :=
  match y with
  | .map kvs =>
    match lookupKey kvs "matcher_name" with
    | some (.str "all") => .ok .all
    | some (.str "stream_id_in") =>
      match lookupKey kvs "stream_ids" with
      | some (.list xs) => (xs.mapM asStr).map Matcher.stream_id_in
      | some _ => .error "stream_ids: input should be a valid tuple"
      | none => .error "stream_ids: field required"
    | some _ => .error "matcher_name does not match any of the expected tags"
    | none => .error "unable to extract tag using discriminator matcher_name"
  | _ => .error "match: input should be a valid dictionary"

/-- Pydantic validation of one `Rule` mapping: `name : str` required,
`match` via `parseMatcher`, `processor : str` required, `processor_config`
an optional mapping defaulting to `{}`. -/
def parseRule (y : Yaml) : Except String Rule :=
  match y with
  | .map kvs => do
    let name ← asStr (← requireField (lookupKey kvs "name") "name: field required")
    let m ← parseMatcher (← requireField (lookupKey kvs "match") "match: field required")
    let proc ← asStr (← requireField (lookupKey kvs "processor") "processor: field required")
    let pcfg ←
      match lookupKey kvs "processor_config" with
      | none => Except.ok ([] : List (String × Yaml))
      | some (.map cfg) => Except.ok cfg
      | some _ => Except.error "processor_config: input should be a valid dictionary"
    .ok { name := name, match_ := m, processor := proc, processor_config := pcfg }
  | _ => .error "rule: input should be a valid dictionary"

/-- Pydantic validation of the whole `Config` document: a mapping whose
required `rules` key holds a sequence of rules (extra keys are ignored, as
pydantic does by default). -/
def parseConfig (y : Yaml) : Except String Config :=
  match y with
  | .map kvs =>
    match lookupKey kvs "rules" with
    | some (.list xs) => (xs.mapM parseRule).map Config.mk
    | some _ => .error "rules: input should be a valid tuple"
    | none => .error "rules: field required"
  | _ => .error "config: input should be a valid dictionary"

/-- The error kinds `load_config` raises: `FileNotFoundError` (the spec's
`NotFound`) and `ValueError` (the spec's `ConfigError`). -/
inductive LoadError where
  | fileNotFound (msg : String) : LoadError
  | valueError (msg : String) : LoadError

/-- `config_loader.load_config`. The filesystem read and the YAML text parse
are modelled by the argument: `none` means the path does not exist
(`FileNotFoundError` before any parsing), `some (.error e)` means the file's
text is not parseable YAML (`YAMLError`, re-raised as `ValueError`), and
`some (.ok doc)` is the parsed document, which is then validated
(`ValidationError` re-raised as `ValueError`). -/
def load_config (source : Option (Except String Yaml)) : Except LoadError Config :=
  match source with
  | none => .error (.fileNotFound "Configuration file not found")
  | some (.error e) => .error (.valueError ("Error parsing configuration file: " ++ e))
  | some (.ok doc) =>
    match parseConfig doc with
    | .error e => .error (.valueError ("Error parsing configuration file: " ++ e))
    | .ok c => .ok c

/-- Serialization of a matcher back to its document form (the discriminator
tag plus the variant's fields), as pydantic model dumping does. -/
def matcherToYaml : Matcher → Yaml
  | .all => .map [("matcher_name", .str "all")]
  | .stream_id_in ids =>
    .map [("matcher_name", .str "stream_id_in"), ("stream_ids", .list (ids.map Yaml.str))]

/-- Serialization of a rule back to its document form. -/
def ruleToYaml (r : Rule) : Yaml :=
  .map [("name", .str r.name), ("match", matcherToYaml r.match_),
        ("processor", .str r.processor), ("processor_config", .map r.processor_config)]

/-- `config_loader.save_config`: `to_yaml_str(config)` — the document the
config serializes to (the text-file write is the identity on the document,
modelled away as in `load_config`). -/
def save_config (c : Config) : Yaml :=
  .map [("rules", .list (c.rules.map ruleToYaml))]

/-- Truthiness of a Python `str | None` value: `None` and the empty string
are falsy, every other string is truthy. -/
def pyTruthyStr : Option String → Bool
  | none => false
  | some s => if s = "" then false else true

/-- Pydantic validation of `priority : Literal[1, 2, 3, 4] | None`
(absent or explicit null means `None`). -/
def validatePriority (o : Option Yaml) : Except String (Option Nat) :=
  match o with
  | none => .ok none
  | some .null => .ok none
  | some (.int n) =>
    if n = 1 ∨ n = 2 ∨ n = 3 ∨ n = 4 then .ok (some n.toNat)
    else .error "priority: input should be 1, 2, 3 or 4"
  | some _ => .error "priority: input should be 1, 2, 3 or 4"

/-- Pydantic validation of `due_datetime : datetime | None` (a datetime is
modelled as an epoch integer). -/
def validateDueDatetime (o : Option Yaml) : Except String (Option Int) :=
  match o with
  | none => .ok none
  | some .null => .ok none
  | some (.int n) => .ok (some n)
  | some _ => .error "due_datetime: input should be a valid datetime"

/-- Construction of a `TodoistEntryProcessor` from a raw keyword-argument
mapping: pydantic validates `project_id` (required string), `due_datetime`
and `priority`, then `__post_init__` reads `TODOIST_API_TOKEN` from the
process environment (`env`) and raises `ValueError` when it is absent or
empty (Python truthiness). -/
def mkTodoist (env : Option String) (raw : List (String × Yaml)) :
    Except String TodoistEntryProcessor := do
  let pid ← asStr (← requireField (lookupKey raw "project_id") "project_id: field required")
  let due ← validateDueDatetime (lookupKey raw "due_datetime")
  let prio ← validatePriority (lookupKey raw "priority")
  if pyTruthyStr env then
    .ok { project_id := pid, due_datetime := due, priority := prio }
  else
    .error "TODOIST_API_TOKEN environment variable must be set"

/-- Pydantic validation of `level : Literal["info", "debug", "warning",
"error"]` with default `"info"`. -/
def validateLevel (o : Option Yaml) : Except String LogLevel :=
  match o with
  | none => .ok .info
  | some (.str "info") => .ok .info
  | some (.str "debug") => .ok .debug
  | some (.str "warning") => .ok .warning
  | some (.str "error") => .ok .error
  | some _ => .error "level: input should be info, debug, warning or error"

/-- Construction of a `LogOnlyEntryProcessor` from a raw keyword-argument
mapping. -/
def mkLogOnly (raw : List (String × Yaml)) : Except String LogOnlyEntryProcessor := do
  let lvl ← validateLevel (lookupKey raw "level")
  .ok { level := lvl }

/-- The processors `processor_factory.get_processor` can build. -/
inductive BuiltProcessor where
  | todoist (p : TodoistEntryProcessor) : BuiltProcessor
  | log_only (p : LogOnlyEntryProcessor) : BuiltProcessor
  deriving DecidableEq, Repr

/-- `processor_factory.get_processor`: `PROCESSOR_MAPPING` maps `"todoist"` to
`TodoistEntryProcessor` and `"log_only"` to `LogOnlyEntryProcessor`; an
unrecognized name raises `ValueError("Unknown processor: ...")`, otherwise
the processor class is constructed from the raw configuration. -/
def get_processor (env : Option String) (processor_name : String)
    (raw : List (String × Yaml)) : Except String BuiltProcessor :=
  if processor_name = "todoist" then (mkTodoist env raw).map .todoist
  else if processor_name = "log_only" then (mkLogOnly raw).map .log_only
  else .error ("Unknown processor: " ++ processor_name)

/-- `feedly_client.StreamContents`: one response page, `items` plus the
optional next-page token (the Python field is called continuation; the Lean
field carries a Tok suffix only because of Lean naming constraints). -/
structure StreamContents where
  items : List Entry
  continuationTok : Option String := none
  deriving DecidableEq, Repr

/-- `FeedlyClient.fetch_saved_entries`, one `while True` iteration at a time.
`api` models `feedly_session.do_api_request`: its argument is the value of the
request's continuation parameter (`none` when the parameter is omitted, which
the code does whenever the `continuation` variable is falsy). Each step yields
the page's items, then breaks when the page's continuation token is falsy
(`None` or the empty string) or the page's item list is empty. The generator
itself is unbounded, so it is run on explicit fuel: the result is the list of
continuation parameters of the requests issued, the entries yielded, and
whether the loop terminated within the fuel (rather than being cut off). -/
def fetchLoop (api : Option String → StreamContents) :
    Nat → Option String → List (Option String) × List Entry × Bool
  | 0, _ => ([], [], false)
  | n + 1, cont =>
    let param := if pyTruthyStr cont then cont else none
    let sc := api param
    if pyTruthyStr sc.continuationTok = false ∨ sc.items = [] then
      ([param], sc.items, true)
    else
      let rest := fetchLoop api n sc.continuationTok
      (param :: rest.1, sc.items ++ rest.2.1, rest.2.2)

/-- `fetch_saved_entries()`: the loop starts with `continuation = None`. -/
def fetch_saved_entries (api : Option String → StreamContents) (fuel : Nat) :
    List (Option String) × List Entry × Bool :=
  fetchLoop api fuel none

theorem mapM_asStr_map_str (ids : List String) :
    List.mapM asStr (ids.map Yaml.str) = .ok ids := by
  induction ids with
  | nil => rfl
  | cons a t ih =>
    rw [List.map_cons, List.mapM_cons, ih]
    rfl

theorem parseMatcher_matcherToYaml (m : Matcher) :
    parseMatcher (matcherToYaml m) = .ok m := by
  cases m with
  | all => rfl
  | stream_id_in ids =>
    show Except.map Matcher.stream_id_in (List.mapM asStr (ids.map Yaml.str)) =
      Except.ok (.stream_id_in ids)
    rw [mapM_asStr_map_str]
    rfl

theorem parseRule_ruleToYaml (r : Rule) : parseRule (ruleToYaml r) = .ok r := by
  obtain ⟨n, m, p, cfg⟩ := r
  show (parseMatcher (matcherToYaml m) >>= fun mm =>
      (Except.ok { name := n, match_ := mm, processor := p, processor_config := cfg } :
        Except String Rule)) =
    Except.ok { name := n, match_ := m, processor := p, processor_config := cfg }
  rw [parseMatcher_matcherToYaml]
  rfl

theorem mapM_parseRule_map_ruleToYaml (rs : List Rule) :
    List.mapM parseRule (rs.map ruleToYaml) = .ok rs := by
  induction rs with
  | nil => rfl
  | cons r t ih =>
    rw [List.map_cons, List.mapM_cons, ih, parseRule_ruleToYaml]
    rfl

theorem parseConfig_save_config (c : Config) : parseConfig (save_config c) = .ok c := by
  obtain ⟨rs⟩ := c
  show Except.map Config.mk (List.mapM parseRule (rs.map ruleToYaml)) = Except.ok ⟨rs⟩
  rw [mapM_parseRule_map_ruleToYaml]
  rfl

/-- C4: saving any `Config` with `save_config` and loading the saved document
back with `load_config` yields the same `Config`: the round-trip is lossless
for every field (rule names, both matcher variants with their stream-id
collections, the processor string and the raw processor-config mapping). -/
theorem c4_save_load_round_trip (c : Config) :
    load_config (some (.ok (save_config c))) = .ok c := by
  have h := parseConfig_save_config c
  simp only [load_config, h]

/-- The claim C5's "parseable document missing a required field": a config
whose single rule has `name` and `processor` but no `match` key. -/
def c5DocMissingMatch : Yaml :=
  .map [("rules", .list [.map
    [("name", .str "Test Rule 1"), ("processor", .str "todoist")]])]

/-- C5: `load_config` on a nonexistent path fails with `FileNotFoundError`
(the spec's `NotFound`); on text that does not parse as YAML it fails with
`ValueError` (the spec's `ConfigError`) wrapping the parse error; and on a
parseable document whose rule is missing the required `match` field it also
fails with `ValueError`. -/
theorem c5_load_config_failure_modes :
    load_config none = .error (.fileNotFound "Configuration file not found") ∧
    (∀ msg, load_config (some (.error msg)) =
      .error (.valueError ("Error parsing configuration file: " ++ msg))) ∧
    load_config (some (.ok c5DocMissingMatch)) =
      .error (.valueError "Error parsing configuration file: match: field required") := by
  refine ⟨rfl, fun msg => rfl, rfl⟩

theorem isMatchCalled_sublist_flatMap (e : Entry) (rules : List DynRule) :
    List.Sublist (rules.map fun r => Event.isMatchCalled r.name e.id)
      (rules.flatMap fun r => process_entry e r) := by
  induction rules with
  | nil => simp
  | cons r t ih =>
    rw [List.map_cons, List.flatMap_cons]
    show List.Sublist (Event.isMatchCalled r.name e.id :: t.map _)
      ((Event.isMatchCalled r.name e.id :: processTail e r) ++ _)
    rw [List.cons_append]
    exact List.Sublist.cons₂ _ (ih.trans (List.sublist_append_right _ _))

/-- C6: the processing loop never propagates an exception and never
terminates early. `process_entries` is a total function into a plain event
trace (every exception a rule's matcher evaluation or processor call raises
is caught inside `process_entry`, which always returns normally), and for
EVERY sequence of entries and EVERY sequence of rules — each rule's matcher
and processor being arbitrary, possibly-failing semantics — the trace
contains the matcher-evaluation marker of every (entry, rule) pair, in
order, as a sublist: every remaining rule for an entry and every remaining
entry is still processed after any failure. -/
theorem c6_loop_isolates_failures (entries : List Entry) (rules : List DynRule) :
    List.Sublist
      (entries.flatMap fun e => rules.map fun r => Event.isMatchCalled r.name e.id)
      (process_entries entries rules) := by
  induction entries with
  | nil => simp [process_entries]
  | cons e t ih =>
    rw [process_entries, List.flatMap_cons, List.flatMap_cons]
    exact List.Sublist.append (isMatchCalled_sublist_flatMap e rules) ih

/-- Recognizer for the matcher-evaluation trace markers. -/
def isMatchCalledEvent : Event → Bool
  | .isMatchCalled _ _ => true
  | _ => false

/-- C7: for two entries and two configured rules, `process_entries`
evaluates the (entry, rule) pairs in exactly the order
(e1, r1), (e1, r2), (e2, r1), (e2, r2): the outer iteration runs over the
entries in input order, the inner iteration over the rules in declared
order. -/
theorem c7_evaluation_order (r1 r2 : Rule) (e1 e2 : Entry) :
    (process_entries [e1, e2] [r1.dyn, r2.dyn]).filter isMatchCalledEvent =
      [Event.isMatchCalled r1.name e1.id, Event.isMatchCalled r2.name e1.id,
       Event.isMatchCalled r1.name e2.id, Event.isMatchCalled r2.name e2.id] := by
  cases h11 : r1.match_.is_match e1 <;> cases h21 : r2.match_.is_match e1 <;>
    cases h12 : r1.match_.is_match e2 <;> cases h22 : r2.match_.is_match e2 <;>
    simp [process_entries, process_entry, processTail, Rule.dyn, isMatchCalledEvent,
      h11, h21, h12, h22]

/-- C9: `TodoistEntryProcessor.process_entry` raises (`ValueError`, the
spec's `InvalidEntry` condition) exactly when the entry's `canonical_url` is
absent; when it is present the processor passes task content
`f"{title} - {canonical_url}"`, the project id, the optional priority, the
optional due-time, and the entry's summary content (absent when the entry has
no summary) as the task description to the Todoist client; and the processing
loop catches the missing-URL failure, logs it, and returns normally without
any task being created. -/
theorem c9_todoist_process_entry (p : TodoistEntryProcessor) (e : Entry) :
    ((∃ msg, p.process_entry e = .error (.valueError msg)) ↔ e.canonical_url = none) ∧
    (∀ url, e.canonical_url = some url →
      p.process_entry e = .ok
        { content := pyStrOpt e.title ++ " - " ++ url
          project_id := p.project_id
          priority := p.priority
          due_datetime := p.due_datetime
          description := e.summary.map Summary.content }) ∧
    (∀ name, e.canonical_url = none →
      process_entry e (todoistDynRule name .all p) =
        [Event.isMatchCalled name e.id,
         Event.logInfoMatched name (pyStrOpt e.title) (pyStrOpt e.canonical_url),
         Event.logErrorProcessing name (pyStrOpt e.title) (pyStrOpt e.canonical_url)]) := by
  refine ⟨?_, ?_, ?_⟩
  · cases h : e.canonical_url with
    | none => simp [TodoistEntryProcessor.process_entry, h]
    | some url => simp [TodoistEntryProcessor.process_entry, h]
  · intro url h
    simp [TodoistEntryProcessor.process_entry, h]
  · intro name h
    simp [process_entry, processTail, todoistDynRule, Matcher.is_match,
      TodoistEntryProcessor.process_entry, h]

/-- Witness for `c9_todoist_process_entry`: a concrete todoist-backed rule
given a concrete entry without a canonical URL produces exactly the
match-log and error-log trace — the loop returns normally and no `addTask`
event occurs. -/
theorem c9_todoist_process_entry_witness :
    process_entry { id := "e" } (todoistDynRule "todo-rule" .all { project_id := "p" }) =
      [Event.isMatchCalled "todo-rule" "e",
       Event.logInfoMatched "todo-rule" "None" "None",
       Event.logErrorProcessing "todo-rule" "None" "None"] :=
  (c9_todoist_process_entry { project_id := "p" } { id := "e" }).2.2 "todo-rule" rfl

/-- C10: `fetch_saved_entries` ends the stream after any page whose
continuation token is falsy (`None` or the empty string — both are treated
the same by Python truthiness) or whose item list is empty: that page's
items are still yielded, the loop breaks with no further request issued, and
the first request is always issued without a continuation parameter. -/
theorem c10_fetch_saved_entries_pagination (api : Option String → StreamContents)
    (n : Nat) (cont : Option String) :
    (pyTruthyStr (api (if pyTruthyStr cont then cont else none)).continuationTok = false ∨
        (api (if pyTruthyStr cont then cont else none)).items = [] →
      fetchLoop api (n + 1) cont =
        ([if pyTruthyStr cont then cont else none],
          (api (if pyTruthyStr cont then cont else none)).items, true)) ∧
    (pyTruthyStr (some "") = false ∧ pyTruthyStr none = false) ∧
    (fetch_saved_entries api (n + 1)).1.head? = some none := by
  refine ⟨?_, ⟨rfl, rfl⟩, ?_⟩
  · intro h
    simp only [fetchLoop]
    rw [if_pos h]
  · simp only [fetch_saved_entries, fetchLoop, ite_self]
    by_cases hc : pyTruthyStr (api none).continuationTok = false ∨ (api none).items = []
    · rw [if_pos hc]
      rfl
    · rw [if_neg hc]
      rfl

/-- Witness for `c10_fetch_saved_entries_pagination`: an API whose single
page has no items and no continuation token is fetched exactly once, with
the continuation parameter omitted, and the loop terminates. -/
theorem c10_fetch_saved_entries_pagination_witness :
    fetchLoop (fun _ => ({ items := [] } : StreamContents)) 1 none = ([none], [], true) :=
  (c10_fetch_saved_entries_pagination (fun _ => ({ items := [] } : StreamContents))
    0 none).1 (Or.inl rfl)

/-- The closest `config_loader.Rule` to the claim C1's "one rule whose
matcher is `all` and whose processor is the log action at level info":
`processor` must be a string, so the log action can only be named, not
held. -/
def c1Rule : Rule :=
  { name := "r1", match_ := .all, processor := "log",
    processor_config := [("level", .str "info")] }

/-- The claim C1's config in document form, with the processor written as a
`processor_name`-discriminated mapping (the shape the repository's tests
use). -/
def c1Doc : Yaml :=
  .map [("rules", .list [.map
    [("name", .str "r1"),
     ("match", .map [("matcher_name", .str "all")]),
     ("processor", .map [("processor_name", .str "log"), ("level", .str "info")])]])]

/-- Recognizer for log-action events (a log processor's `logger.<level>`
call). -/
def isLogActionEvent : Event → Bool
  | .logAt _ _ => true
  | _ => false

/-- Recognizer for the loop's "Error processing entry ..." log events. -/
def isProcessingErrorEvent : Event → Bool
  | .logErrorProcessing _ _ _ => true
  | _ => false

/-- C1, evaluated on the code as written: (i) the claim's config document
(processor as a log-action mapping) does not even load — `Rule.processor` is
declared `str`, so the mapping fails validation; (ii) with the nearest
loadable rule (`processor: "log"` as a string) the loop over two entries
invokes the log action zero times, not twice: `rule.processor.process_entry`
raises `AttributeError` on the string for each matched entry, which is
caught and logged as a processing error (twice), and the loop never
aborts. -/
theorem c1_code_evaluation :
    process_entries [{ id := "e1" }, { id := "e2" }] [c1Rule.dyn] =
      [Event.isMatchCalled "r1" "e1",
       Event.logInfoMatched "r1" "None" "None",
       Event.logErrorProcessing "r1" "None" "None",
       Event.isMatchCalled "r1" "e2",
       Event.logInfoMatched "r1" "None" "None",
       Event.logErrorProcessing "r1" "None" "None"] ∧
    (process_entries [{ id := "e1" }, { id := "e2" }] [c1Rule.dyn]).countP
      isLogActionEvent = 0 ∧
    load_config (some (.ok c1Doc)) =
      .error (.valueError "Error parsing configuration file: Input should be a valid string") := by
  refine ⟨rfl, rfl, rfl⟩

/-- A document whose rule's `processor` is the unrecognized kind string
`"no_such_processor_kind"` (outside the recognized set
{"todoist", "log_only"}). -/
def c2DocUnknownProcessor : Yaml :=
  .map [("rules", .list [.map
    [("name", .str "r1"),
     ("match", .map [("matcher_name", .str "all")]),
     ("processor", .str "no_such_processor_kind")]])]

/-- A document whose rule's `match` carries the unknown discriminator tag
`"bogus"`. -/
def c2DocUnknownMatcher : Yaml :=
  .map [("rules", .list [.map
    [("name", .str "r1"),
     ("match", .map [("matcher_name", .str "bogus")]),
     ("processor", .str "todoist")]])]

/-- The rule `load_config` produces from `c2DocUnknownProcessor`: the
unrecognized processor kind is stored as-is. -/
def c2ExpectedRule : Rule :=
  { name := "r1", match_ := .all, processor := "no_such_processor_kind",
    processor_config := [] }

/-- C2, evaluated on the code as written: `load_config` accepts a rule whose
`processor` is an unrecognized kind (the field is a plain `str`, checked
against nothing at load time), while an unknown `matcher_name` tag does fail
with `ValueError` — the two fields are NOT handled by the same
discriminated-union approach in the code. -/
theorem c2_code_evaluation :
    load_config (some (.ok c2DocUnknownProcessor)) =
      .ok { rules := [c2ExpectedRule] } ∧
    load_config (some (.ok c2DocUnknownMatcher)) =
      .error (.valueError
        "Error parsing configuration file: matcher_name does not match any of the expected tags") := by
  refine ⟨rfl, rfl⟩

/-- A document whose `stream_id_in` matcher has an empty `stream_ids`
sequence, and whose raw processor config carries the out-of-range
`priority: 7`. -/
def c3Doc : Yaml :=
  .map [("rules", .list [.map
    [("name", .str "r1"),
     ("match", .map [("matcher_name", .str "stream_id_in"), ("stream_ids", .list [])]),
     ("processor", .str "todoist"),
     ("processor_config", .map
       [("project_id", .str "Inbox"), ("priority", .int 7)])]])]

/-- The rule `load_config` produces from `c3Doc`: the empty `stream_ids`
and the out-of-range priority are accepted unchanged. -/
def c3ExpectedRule : Rule :=
  { name := "r1", match_ := .stream_id_in [], processor := "todoist",
    processor_config := [("project_id", .str "Inbox"), ("priority", .int 7)] }

/-- Counterexample to C3 as stated: `load_config` SUCCEEDS on a document
whose `stream_id_in` matcher has an empty `stream_ids` collection (and whose
raw processor config even carries `priority: 7`) — `StreamIdInMatcher`
declares `stream_ids : tuple[str, ...]` with no non-emptiness constraint and
`processor_config` is an arbitrary mapping, so no `ConfigError` is
raised. -/
theorem c3_counterexample :
    load_config (some (.ok c3Doc)) = .ok { rules := [c3ExpectedRule] } := by
  rfl

/-- C3 amended: `load_config` accepts an empty `stream_ids` collection (the
resulting matcher simply matches no entry) and does not validate `priority`
at all; the priority-in-{1,2,3,4}-or-absent constraint is enforced only when
a todoist processor is constructed from the raw config
(`get_processor` → `TodoistEntryProcessor` validation). -/
theorem c3_amended :
    load_config (some (.ok c3Doc)) = .ok { rules := [c3ExpectedRule] } ∧
    (∀ e : Entry, Matcher.is_match (.stream_id_in []) e = false) ∧
    get_processor (some "tok") "todoist"
        [("project_id", .str "Inbox"), ("priority", .int 7)] =
      .error "priority: input should be 1, 2, 3 or 4" ∧
    (∀ n : Int, n = 1 ∨ n = 2 ∨ n = 3 ∨ n = 4 →
      get_processor (some "tok") "todoist"
          [("project_id", .str "Inbox"), ("priority", .int n)] =
        .ok (.todoist { project_id := "Inbox", priority := some n.toNat })) ∧
    get_processor (some "tok") "todoist" [("project_id", .str "Inbox")] =
      .ok (.todoist { project_id := "Inbox" }) := by
  refine ⟨rfl, ?_, rfl, ?_, rfl⟩
  · intro e
    cases h : e.origin <;> simp [Matcher.is_match, h]
  · intro n hn
    rcases hn with h | h | h | h <;> subst h <;> rfl

/-- Witness for `c3_amended`: the in-range priority 1 is accepted when the
todoist processor is constructed. -/
theorem c3_amended_witness :
    get_processor (some "tok") "todoist"
        [("project_id", .str "Inbox"), ("priority", .int 1)] =
      .ok (.todoist { project_id := "Inbox", priority := some 1 }) :=
  c3_amended.2.2.2.1 1 (Or.inl rfl)

end FeedlySEP
